import Mathlib

/-!
Shallow embedding of the ClassroomBot access-control and homework command
pipeline: the drizzle schema (groups / students / homework tables), the
student registration tool, the student verification tool and the three
homework tools, modelled as pure functions over an explicit database state.
Store reachability, the DATABASE_URL configuration and the outcome of the
best-effort username update are carried in an explicit environment; the
JavaScript date parser is an opaque function of that environment.
ISO rendering of timestamps is elided: nullable timestamp outputs are kept
as `Option Int`, none exactly when the JavaScript value is null.
-/

namespace ClassroomBot

/-- Access tiers of the `students.access_level` column. -/
inductive AccessLevel where
  | student
  | monitor
  | admin
  | owner
deriving DecidableEq, Repr

/-- Row of the `groups` table (fields the tools read). -/
structure Group where
  id : Nat
  groupName : String
deriving DecidableEq, Repr

/-- Row of the `students` table (fields the tools read); nullable columns are options. -/
structure Student where
  id : Nat
  telegramUserId : Int
  telegramUsername : Option String
  studentId : String
  firstName : Option String
  lastName : Option String
  groupId : Option Nat
  accessLevel : Option AccessLevel
  isActive : Option Bool
deriving DecidableEq, Repr

/-- Row of the `homework` table. -/
structure Homework where
  id : Nat
  title : String
  description : Option String
  subject : Option String
  dueDate : Option Int
  groupId : Option Nat
  createdBy : Option Nat
  createdAt : Option Int
deriving DecidableEq, Repr

/-- The relational store: table contents plus the serial counters. -/
structure DB where
  groups : List Group
  students : List Student
  homework : List Homework
  nextStudentId : Nat
  nextHomeworkId : Nat
deriving DecidableEq, Repr

/-- Process environment and external effects: DATABASE_URL presence, store
reachability (false: the first query of a call throws and is caught),
success of the opportunistic username update, the JavaScript date parser
(none when `new Date` yields NaN or throws) and the current time. -/
structure Env where
  dbUrl : Bool
  dbOk : Bool
  updateOk : Bool
  parseDate : String → Option Int
  now : Int

/-- JavaScript `toUpperCase()` on the ASCII roster keys: simple per-character
upper-casing, written over the character list so the kernel can evaluate it. -/
def jsToUpper (s : String) : String := ⟨s.data.map Char.toUpper⟩

/-- JavaScript truthiness of an optional string: the empty string is falsy. -/
def jsStr : Option String → Option String
  | some s => if s = "" then none else some s
  | none => none

/-- JavaScript chain `a || b || null` over optional strings. -/
def jsOrStr (a b : Option String) : Option String :=
  match jsStr a with
  | some s => some s
  | none => jsStr b

/-- JavaScript truthiness of an optional number: 0 is falsy. -/
def jsNat : Option Nat → Option Nat
  | some n => if n = 0 then none else some n
  | none => none

/-- JavaScript truthiness of a nullable boolean column. -/
def truthyB : Option Bool → Bool
  | some b => b
  | none => false

/-- The tools read the caller tier as `accessLevel || "student"`. -/
def levelOf (s : Student) : AccessLevel :=
  s.accessLevel.getD AccessLevel.student

/-- Tier test `["monitor", "admin", "owner"].includes(level)` used by Add and Delete. -/
def hasPermission : AccessLevel → Bool
  | AccessLevel.monitor => true
  | AccessLevel.admin => true
  | AccessLevel.owner => true
  | AccessLevel.student => false

/-- Tier test `["admin", "owner"].includes(level)` used by View. -/
def isAdminLevel : AccessLevel → Bool
  | AccessLevel.admin => true
  | AccessLevel.owner => true
  | _ => false

/-- Group-name lookup by nullable foreign key (`eq(groups.id, g)` with limit 1). -/
def lookupGroupName (db : DB) (g : Option Nat) : Option String :=
  g.bind (fun gid => (db.groups.find? (fun gr => gr.id == gid)).map Group.groupName)

/-- Enrollment descriptor of an authorized studentId in the static roster. -/
structure RosterEntry where
  groupId : Nat
  firstName : Option String
  lastName : Option String
  accessLevel : AccessLevel
deriving DecidableEq, Repr

/-- The AUTHORIZED_STUDENTS roster literal of studentRegistration.ts,
keyed by upper-cased studentId. -/
def AUTHORIZED_STUDENTS : String → Option RosterEntry
  | "ST001" => some ⟨1, some "Иван", some "Петров", AccessLevel.student⟩
  | "ST002" => some ⟨1, some "Мария", some "Сидорова", AccessLevel.monitor⟩
  | "ST003" => some ⟨2, some "Алексей", some "Козлов", AccessLevel.student⟩
  | "ST004" => some ⟨2, some "Анна", some "Волкова", AccessLevel.admin⟩
  | "ST005" => some ⟨3, some "Дмитрий", some "Новиков", AccessLevel.owner⟩
  | "ST006" => some ⟨3, some "Екатерина", some "Смирнова", AccessLevel.student⟩
  | _ => none

/-- Student projection returned by the registration tool. -/
structure RegStudent where
  id : Nat
  studentId : String
  firstName : Option String
  lastName : Option String
  groupId : Option Nat
  groupName : String
  accessLevel : AccessLevel
deriving DecidableEq, Repr

/-- Output schema of the registration tool. -/
structure RegOutput where
  success : Bool
  student : Option RegStudent
  message : String
deriving DecidableEq, Repr

/-- The studentRegistrationTool.execute body of studentRegistration.ts,
as a pure function from environment, store state and inputs to the tool
output and the resulting store state. -/
def studentRegistration (env : Env) (db : DB) (telegramUserId : Int)
    (telegramUsername : Option String) (studentId : String)
    (firstName lastName : Option String) : RegOutput × DB :=
  match AUTHORIZED_STUDENTS (jsToUpper studentId) with
  | none =>
    (⟨false, none,
      "ID студента \"" ++ studentId ++ "\" не найден в списке авторизованных. Доступ запрещен."⟩, db)
  | some auth =>
    if env.dbUrl = false then
      (⟨false, none, "Ошибка подключения к базе данных"⟩, db)
    else if env.dbOk = false then
      (⟨false, none, "Произошла ошибка при регистрации. Попробуйте позже."⟩, db)
    else
      match db.students.find? (fun s => s.studentId == (jsToUpper studentId)) with
      | some existing =>
        if existing.telegramUserId == telegramUserId then
          (⟨true, some ⟨existing.id, existing.studentId, existing.firstName, existing.lastName,
              existing.groupId, (lookupGroupName db existing.groupId).getD "Неизвестно",
              existing.accessLevel.getD AccessLevel.student⟩,
            "Вы уже зарегистрированы в системе!"⟩, db)
        else
          (⟨false, none,
            "ID студента \"" ++ studentId ++ "\" уже используется другим пользователем Telegram."⟩, db)
      | none =>
        match db.students.find? (fun s => s.telegramUserId == telegramUserId) with
        | some existingT =>
          (⟨false, none,
            "Ваш Telegram аккаунт уже связан с ID студента \"" ++ existingT.studentId ++ "\"."⟩, db)
        | none =>
          let newStudent : Student :=
            ⟨db.nextStudentId, telegramUserId, jsStr telegramUsername, (jsToUpper studentId),
             jsOrStr firstName auth.firstName, jsOrStr lastName auth.lastName,
             some auth.groupId, some auth.accessLevel, some true⟩
          let db' : DB :=
            { db with students := db.students ++ [newStudent],
                      nextStudentId := db.nextStudentId + 1 }
          let groupName :=
            ((db.groups.find? (fun gr => gr.id == auth.groupId)).map Group.groupName).getD "Неизвестно"
          (⟨true, some ⟨newStudent.id, newStudent.studentId, newStudent.firstName,
              newStudent.lastName, newStudent.groupId, groupName,
              newStudent.accessLevel.getD AccessLevel.student⟩,
            "Добро пожаловать! Вы успешно зарегистрированы как " ++
              ((jsStr newStudent.firstName).getD "студент") ++
              " в группе \"" ++ groupName ++ "\"."⟩, db')

/-- Student projection returned by the verification tool. The final isActive
field is the source expression `student.isActive || true`, which on the
reachable (truthy) branch is always true. -/
structure VerStudent where
  id : Nat
  studentId : String
  firstName : Option String
  lastName : Option String
  groupId : Option Nat
  groupName : Option String
  accessLevel : AccessLevel
  isActive : Bool
deriving DecidableEq, Repr

/-- Output schema of the verification tool. -/
structure VerOutput where
  isVerified : Bool
  student : Option VerStudent
  message : String
deriving DecidableEq, Repr

/-- Projection built by studentVerification.ts for a found, active student. -/
def verProjection (db : DB) (s : Student) : VerStudent :=
  ⟨s.id, s.studentId, s.firstName, s.lastName, s.groupId,
   lookupGroupName db s.groupId, s.accessLevel.getD AccessLevel.student, true⟩

/-- The studentVerificationTool.execute body of studentVerification.ts.
The opportunistic username update runs on a second connection inside its
own try/catch: `env.updateOk = false` models that update throwing, which is
logged and swallowed. -/
def studentVerification (env : Env) (db : DB) (telegramUserId : Int)
    (telegramUsername : Option String) : VerOutput × DB :=
  if env.dbUrl = false then
    (⟨false, none, "Ошибка подключения к базе данных"⟩, db)
  else if env.dbOk = false then
    (⟨false, none, "Произошла ошибка при проверке данных. Попробуйте позже."⟩, db)
  else
    match db.students.find? (fun s => s.telegramUserId == telegramUserId) with
    | none =>
      (⟨false, none, "Пользователь не найден в базе данных класса. Доступ запрещен."⟩, db)
    | some s =>
      if truthyB s.isActive = false then
        (⟨false, none, "Учетная запись студента деактивирована. Обратитесь к администратору."⟩, db)
      else
        let db' : DB :=
          match jsStr telegramUsername with
          | some u =>
            if s.telegramUsername ≠ some u then
              if env.updateOk then
                { db with students := db.students.map (fun t =>
                    if t.telegramUserId == telegramUserId then
                      { t with telegramUsername := some u }
                    else t) }
              else db
            else db
          | none => db
        (⟨true, some (verProjection db s),
          "Добро пожаловать, " ++ ((jsOrStr s.firstName telegramUsername).getD "студент") ++
            "! Ваша группа: " ++ ((jsStr (lookupGroupName db s.groupId)).getD "не назначена")⟩, db')

/-- Homework projection returned by the add tool (dueDate kept as the
underlying nullable timestamp; ISO rendering elided). -/
structure HwOut where
  id : Nat
  title : String
  description : Option String
  subject : Option String
  dueDate : Option Int
  groupName : String
deriving DecidableEq, Repr

/-- Output schema of the add-homework tool. -/
structure AddOutput where
  success : Bool
  homework : Option HwOut
  message : String
deriving DecidableEq, Repr

/-- Target-group resolution of the add tool: `groupId || creatorData.groupId`
followed by the falsy `!targetGroupId` check. -/
def addTargetGroup (groupId creatorGroupId : Option Nat) : Option Nat :=
  match jsNat groupId with
  | some g => some g
  | none => jsNat creatorGroupId

/-- The addHomeworkTool.execute body of homeworkManagement.ts. -/
def addHomework (env : Env) (db : DB) (createdByTelegramId : Int) (title : String)
    (description subject dueDate : Option String) (groupId : Option Nat) : AddOutput × DB :=
  if env.dbUrl = false then
    (⟨false, none, "Ошибка подключения к базе данных"⟩, db)
  else if env.dbOk = false then
    (⟨false, none, "Произошла ошибка при создании домашнего задания"⟩, db)
  else
    match db.students.find? (fun s => s.telegramUserId == createdByTelegramId) with
    | none => (⟨false, none, "Пользователь не найден в базе данных"⟩, db)
    | some creator =>
      if hasPermission (levelOf creator) = false then
        (⟨false, none,
          "У вас нет прав для добавления домашних заданий. Обратитесь к старосте или администратору."⟩, db)
      else
        match addTargetGroup groupId creator.groupId with
        | none => (⟨false, none, "Не удалось определить группу для домашнего задания"⟩, db)
        | some targetGroupId =>
          match db.groups.find? (fun gr => gr.id == targetGroupId) with
          | none => (⟨false, none, "Группа не найдена"⟩, db)
          | some grp =>
            let parsedDueDate := (jsStr dueDate).bind env.parseDate
            let hw : Homework :=
              ⟨db.nextHomeworkId, title, jsStr description, jsStr subject,
               parsedDueDate, some targetGroupId, some creator.id, some env.now⟩
            let db' : DB :=
              { db with homework := db.homework ++ [hw],
                        nextHomeworkId := db.nextHomeworkId + 1 }
            (⟨true, some ⟨hw.id, hw.title, hw.description, hw.subject, hw.dueDate, grp.groupName⟩,
              "Домашнее задание \"" ++ title ++ "\" успешно добавлено для группы \"" ++
                grp.groupName ++ "\"."⟩, db')

/-- ORDER BY created_at DESC with SQL null ordering (nulls first under DESC):
row a may come before row b. -/
def createdDescLe (a b : Homework) : Bool :=
  match a.createdAt, b.createdAt with
  | none, _ => true
  | some _, none => false
  | some x, some y => decide (y ≤ x)

/-- The ordering relation used to sort homework rows for the view tool. -/
def hwOrder : Homework → Homework → Prop := fun a b => createdDescLe a b = true

instance : DecidableRel hwOrder := fun _ _ => instDecidableEqBool _ _

/-- Creator display name: firstName truthy yields trimmed
first-plus-last, otherwise null. -/
def creatorName (c : Option Student) : Option String :=
  match c with
  | none => none
  | some st =>
    match jsStr st.firstName with
    | none => none
    | some fn => some ((fn ++ " " ++ ((jsStr st.lastName).getD "")).trim)

/-- Homework list item returned by the view tool (timestamps kept as
nullable ints; ISO rendering and the empty-string createdAt fallback elided). -/
structure HwItem where
  id : Nat
  title : String
  description : Option String
  subject : Option String
  dueDate : Option Int
  groupName : String
  creatorName : Option String
  createdAt : Option Int
deriving DecidableEq, Repr

/-- Output schema of the view-homework tool. -/
structure ViewOutput where
  success : Bool
  homeworkList : List HwItem
  message : String
deriving DecidableEq, Repr

/-- Projection of one joined homework row in the view tool. -/
def viewItem (db : DB) (hw : Homework) : HwItem :=
  ⟨hw.id, hw.title, hw.description, hw.subject, hw.dueDate,
   (lookupGroupName db hw.groupId).getD "Неизвестно",
   creatorName (hw.createdBy.bind (fun cid => db.students.find? (fun s => s.id == cid))),
   hw.createdAt⟩

/-- Target-group resolution of the view tool: the requested groupId is kept
only for an admin/owner caller with a truthy request; otherwise the caller's
own group (with the JavaScript falsy checks of the source). -/
def viewTargetGroup (isAdmin : Bool) (groupId userGroupId : Option Nat) : Option Nat :=
  if isAdmin = false || (jsNat groupId).isNone then jsNat userGroupId
  else jsNat groupId

/-- The viewHomeworkTool.execute body of homeworkManagement.ts. -/
def viewHomework (env : Env) (db : DB) (telegramUserId : Int)
    (groupId : Option Nat) (limit : Nat) : ViewOutput × DB :=
  if env.dbUrl = false then
    (⟨false, [], "Ошибка подключения к базе данных"⟩, db)
  else if env.dbOk = false then
    (⟨false, [], "Произошла ошибка при получении домашних заданий"⟩, db)
  else
    match db.students.find? (fun s => s.telegramUserId == telegramUserId) with
    | none => (⟨false, [], "Пользователь не найден в базе данных"⟩, db)
    | some user =>
      match viewTargetGroup (isAdminLevel (levelOf user)) groupId user.groupId with
      | none => (⟨false, [], "Группа не определена"⟩, db)
      | some tg =>
        let rows :=
          (((db.homework.filter (fun hw => hw.groupId == some tg)).insertionSort hwOrder).take
            limit)
        let items := rows.map (viewItem db)
        (⟨true, items,
          if items.length > 0 then
            "Найдено " ++ toString items.length ++ " домашних заданий"
          else "Домашние задания не найдены"⟩, db)

/-- Output schema of the delete-homework tool. -/
structure DelOutput where
  success : Bool
  message : String
deriving DecidableEq, Repr

/-- The deleteHomeworkTool.execute body of homeworkManagement.ts. -/
def deleteHomework (env : Env) (db : DB) (telegramUserId : Int)
    (homeworkId : Nat) : DelOutput × DB :=
  if env.dbUrl = false then
    (⟨false, "Ошибка подключения к базе данных"⟩, db)
  else if env.dbOk = false then
    (⟨false, "Произошла ошибка при удалении домашнего задания"⟩, db)
  else
    match db.students.find? (fun s => s.telegramUserId == telegramUserId) with
    | none => (⟨false, "Пользователь не найден в базе данных"⟩, db)
    | some user =>
      if hasPermission (levelOf user) = false then
        (⟨false,
          "У вас нет прав для удаления домашних заданий. Обратитесь к старосте или администратору."⟩, db)
      else
        match db.homework.find? (fun hw => hw.id == homeworkId) with
        | none => (⟨false, "Домашнее задание не найдено"⟩, db)
        | some hw =>
          (⟨true, "Домашнее задание \"" ++ hw.title ++ "\" успешно удалено."⟩,
           { db with homework := db.homework.filter (fun h => !(h.id == homeworkId)) })

/-! Helper lemmas shared across the verification results. -/

/-- Finding in a mapped list when the map preserves the predicate. -/
theorem find?_map_same {α : Type} (g : α → α) (p : α → Bool)
    (hp : ∀ a, p (g a) = p a) (l : List α) :
    (l.map g).find? p = (l.find? p).map g := by
  have hpg : (p ∘ g) = p := funext hp
  rw [List.find?_map, hpg]

/-- Sample environment with configured, reachable store. -/
def envOK : Env := ⟨true, true, true, fun _ => none, 0⟩

/-! Claim theorems. -/

/-- C6: for every studentId whose case-folded form is absent from the
AUTHORIZED_STUDENTS roster, registration returns success = false with the
not-authorized message, and performs no store access at all: the same
result is produced for every environment — database unconfigured or
unreachable included — and every store state, and the store is returned
unchanged. -/
theorem registration_unauthorized_no_store_access
    (env : Env) (db : DB) (uid : Int) (un fn ln : Option String) (sid : String)
    (h : AUTHORIZED_STUDENTS (jsToUpper sid) = none) :
    studentRegistration env db uid un sid fn ln =
      (⟨false, none,
        "ID студента \"" ++ sid ++ "\" не найден в списке авторизованных. Доступ запрещен."⟩, db) := by
  unfold studentRegistration
  rw [h]

/-- Witness for C6 at the unauthorized id "zz999" with an unconfigured and
unreachable database. -/
theorem registration_unauthorized_no_store_access_witness :
    AUTHORIZED_STUDENTS (jsToUpper "zz999") = none ∧
    studentRegistration ⟨false, false, false, fun _ => none, 0⟩ ⟨[], [], [], 1, 1⟩
        42 none "zz999" none none =
      (⟨false, none,
        "ID студента \"zz999\" не найден в списке авторизованных. Доступ запрещен."⟩,
       ⟨[], [], [], 1, 1⟩) :=
  ⟨by decide,
   registration_unauthorized_no_store_access ⟨false, false, false, fun _ => none, 0⟩
     ⟨[], [], [], 1, 1⟩ 42 none none none "zz999" (by decide)⟩

/-- C3: a stored student record with isActive = false always fails
verification — isVerified = false, a deactivation message, no student
projection and an unchanged store — whatever every other field of the
record holds. -/
theorem verification_deactivated_fails
    (env : Env) (db : DB) (uid : Int) (un : Option String) (s : Student)
    (hurl : env.dbUrl = true) (hok : env.dbOk = true)
    (hfind : db.students.find? (fun t => t.telegramUserId == uid) = some s)
    (hact : s.isActive = some false) :
    studentVerification env db uid un =
      (⟨false, none, "Учетная запись студента деактивирована. Обратитесь к администратору."⟩, db) := by
  simp [studentVerification, hurl, hok, hfind, hact, truthyB]

/-- Sample deactivated student (an otherwise fully privileged record). -/
def stDeactivated : Student :=
  ⟨1, 100, some "u100", "ST005", some "Дмитрий", some "Новиков",
   some 3, some AccessLevel.owner, some false⟩

/-- Sample store holding only the deactivated student. -/
def dbDeactivated : DB := ⟨[⟨3, "Группа 3"⟩], [stDeactivated], [], 2, 1⟩

/-- Witness for C3 at a deactivated owner-tier record. -/
theorem verification_deactivated_fails_witness :
    envOK.dbUrl = true ∧ envOK.dbOk = true ∧
    dbDeactivated.students.find? (fun t => t.telegramUserId == (100 : Int)) =
      some stDeactivated ∧
    stDeactivated.isActive = some false ∧
    studentVerification envOK dbDeactivated 100 none =
      (⟨false, none, "Учетная запись студента деактивирована. Обратитесь к администратору."⟩,
       dbDeactivated) :=
  ⟨rfl, rfl, by decide, rfl,
   verification_deactivated_fails envOK dbDeactivated 100 none stDeactivated rfl rfl
     (by decide) rfl⟩

/-- C9: when a supplied handle differs from the stored one, verification
updates the stored handle as a side effect, and a failure of that update is
swallowed: the tool output is identical whether the update succeeds or
fails, the call still verifies with the student projection, a failed update
leaves the store untouched, and a successful update rewrites the stored
handle of the caller's row. -/
theorem verification_handle_update_best_effort
    (env : Env) (db : DB) (uid : Int) (u : String) (s : Student)
    (hurl : env.dbUrl = true) (hok : env.dbOk = true)
    (hfind : db.students.find? (fun t => t.telegramUserId == uid) = some s)
    (hact : truthyB s.isActive = true)
    (hu : u ≠ "")
    (hdiff : s.telegramUsername ≠ some u) :
    (studentVerification { env with updateOk := true } db uid (some u)).1 =
        (studentVerification { env with updateOk := false } db uid (some u)).1 ∧
    (studentVerification { env with updateOk := false } db uid (some u)).1.isVerified = true ∧
    (studentVerification { env with updateOk := false } db uid (some u)).1.student =
        some (verProjection db s) ∧
    (studentVerification { env with updateOk := false } db uid (some u)).2 = db ∧
    (studentVerification { env with updateOk := true } db uid (some u)).2.students.find?
        (fun t => t.telegramUserId == uid) = some { s with telegramUsername := some u } := by
  have hfs0 := List.find?_some hfind
  have hfs : (s.telegramUserId == uid) = true := hfs0
  have heq : s.telegramUserId = uid := by simpa using hfs
  simp only [studentVerification]
  simp [hurl, hok, hfind, jsStr, hu, hdiff, hact, hfs]
  refine ⟨s, ?_, ?_⟩
  · have hcomp : ((fun t : Student => t.telegramUserId == uid) ∘ (fun t : Student =>
        if t.telegramUserId = uid then { t with telegramUsername := some u } else t)) =
        (fun t : Student => t.telegramUserId == uid) := by
      funext a
      by_cases h : a.telegramUserId = uid <;> simp [h]
    rw [hcomp]
    exact hfind
  · rw [if_pos heq]

/-- Sample active student with a stale stored handle. -/
def stStale : Student :=
  ⟨1, 300, some "old", "ST001", some "Иван", none, some 1, some AccessLevel.student, some true⟩

/-- Sample store holding the stale-handle student. -/
def dbStale : DB := ⟨[⟨1, "Группа 1"⟩], [stStale], [], 2, 1⟩

/-- Witness for C9 at a concrete stale handle. -/
theorem verification_handle_update_best_effort_witness :
    envOK.dbUrl = true ∧ envOK.dbOk = true ∧
    dbStale.students.find? (fun t => t.telegramUserId == (300 : Int)) = some stStale ∧
    truthyB stStale.isActive = true ∧ ("new" : String) ≠ "" ∧
    stStale.telegramUsername ≠ some "new" ∧
    ((studentVerification { envOK with updateOk := true } dbStale 300 (some "new")).1 =
        (studentVerification { envOK with updateOk := false } dbStale 300 (some "new")).1 ∧
     (studentVerification { envOK with updateOk := false } dbStale 300 (some "new")).1.isVerified
        = true ∧
     (studentVerification { envOK with updateOk := false } dbStale 300 (some "new")).1.student =
        some (verProjection dbStale stStale) ∧
     (studentVerification { envOK with updateOk := false } dbStale 300 (some "new")).2 = dbStale ∧
     (studentVerification { envOK with updateOk := true } dbStale 300 (some "new")).2.students.find?
        (fun t => t.telegramUserId == (300 : Int)) =
          some { stStale with telegramUsername := some "new" }) :=
  ⟨rfl, rfl, by decide, rfl, by decide, by decide,
   verification_handle_update_best_effort envOK dbStale 300 "new" stStale rfl rfl
     (by decide) rfl (by decide) (by decide)⟩

/-- C10: the delete tool checks only the caller's tier, never the caller's
group against the homework's group: for every monitor/admin/owner caller
and every existing homework id — its group unconstrained — deletion
succeeds, reports the row's title, and removes exactly the rows with that
id. -/
theorem delete_homework_tier_only
    (env : Env) (db : DB) (uid : Int) (hwid : Nat) (s : Student) (hw : Homework)
    (hurl : env.dbUrl = true) (hok : env.dbOk = true)
    (hfind : db.students.find? (fun t => t.telegramUserId == uid) = some s)
    (hperm : hasPermission (levelOf s) = true)
    (hhw : db.homework.find? (fun h => h.id == hwid) = some hw) :
    (deleteHomework env db uid hwid).1.success = true ∧
    (deleteHomework env db uid hwid).1.message =
      "Домашнее задание \"" ++ hw.title ++ "\" успешно удалено." ∧
    (deleteHomework env db uid hwid).2.homework =
      db.homework.filter (fun h => !(h.id == hwid)) := by
  simp [deleteHomework, hurl, hok, hfind, hperm, hhw]

/-- Sample monitor-tier caller in group 1. -/
def stMonitor : Student :=
  ⟨1, 200, none, "ST002", some "Мария", some "Сидорова",
   some 1, some AccessLevel.monitor, some true⟩

/-- Sample homework row belonging to group 2, not the monitor's group 1. -/
def hwOtherGroup : Homework := ⟨5, "Алгебра", none, none, none, some 2, some 9, some 10⟩

/-- Sample store with the monitor and the cross-group homework row. -/
def dbCross : DB :=
  ⟨[⟨1, "Группа 1"⟩, ⟨2, "Группа 2"⟩], [stMonitor], [hwOtherGroup], 2, 6⟩

/-- Witness for C10: the group-1 monitor deletes the group-2 homework row. -/
theorem delete_homework_tier_only_witness :
    envOK.dbUrl = true ∧ envOK.dbOk = true ∧
    dbCross.students.find? (fun t => t.telegramUserId == (200 : Int)) = some stMonitor ∧
    hasPermission (levelOf stMonitor) = true ∧
    dbCross.homework.find? (fun h => h.id == (5 : Nat)) = some hwOtherGroup ∧
    stMonitor.groupId = some 1 ∧ hwOtherGroup.groupId = some 2 ∧
    ((deleteHomework envOK dbCross 200 5).1.success = true ∧
     (deleteHomework envOK dbCross 200 5).1.message =
       "Домашнее задание \"Алгебра\" успешно удалено." ∧
     (deleteHomework envOK dbCross 200 5).2.homework =
       dbCross.homework.filter (fun h => !(h.id == (5 : Nat)))) :=
  ⟨rfl, rfl, by decide, rfl, by decide, rfl, rfl,
   delete_homework_tier_only envOK dbCross 200 5 stMonitor hwOtherGroup rfl rfl
     (by decide) rfl (by decide)⟩

/-- C8: a student-tier caller deleting an existing homework row is denied
with the authorization message and the store — the row included — is left
unchanged; and a monitor/admin/owner caller deleting a non-existent id gets
a reported not-found failure, not a silent no-op. -/
theorem delete_homework_student_denied_and_missing_reported
    (env : Env) (db : DB) (uidS uidM : Int) (hwid missingId : Nat)
    (sS sM : Student) (hw : Homework)
    (hurl : env.dbUrl = true) (hok : env.dbOk = true)
    (hfindS : db.students.find? (fun t => t.telegramUserId == uidS) = some sS)
    (hlvlS : sS.accessLevel = some AccessLevel.student)
    (hhw : db.homework.find? (fun h => h.id == hwid) = some hw)
    (hfindM : db.students.find? (fun t => t.telegramUserId == uidM) = some sM)
    (hpermM : hasPermission (levelOf sM) = true)
    (hmissing : db.homework.find? (fun h => h.id == missingId) = none) :
    (deleteHomework env db uidS hwid).1.success = false ∧
    (deleteHomework env db uidS hwid).1.message =
      "У вас нет прав для удаления домашних заданий. Обратитесь к старосте или администратору." ∧
    (deleteHomework env db uidS hwid).2 = db ∧
    hw ∈ (deleteHomework env db uidS hwid).2.homework ∧
    (deleteHomework env db uidM missingId).1.success = false ∧
    (deleteHomework env db uidM missingId).1.message = "Домашнее задание не найдено" ∧
    (deleteHomework env db uidM missingId).2 = db := by
  have hmem : hw ∈ db.homework := List.mem_of_find?_eq_some hhw
  have hlvl : hasPermission (levelOf sS) = false := by
    simp [levelOf, hlvlS, hasPermission]
  simp [deleteHomework, hurl, hok, hfindS, hfindM, hpermM, hmissing, hlvl, hmem]

/-- Sample student-tier caller in group 1. -/
def stPlain : Student :=
  ⟨1, 401, none, "ST001", some "Иван", none, some 1, some AccessLevel.student, some true⟩

/-- Sample monitor-tier caller for the missing-id half of C8. -/
def stMonitorB : Student :=
  ⟨2, 402, none, "ST002", some "Мария", none, some 1, some AccessLevel.monitor, some true⟩

/-- Sample homework row for C8. -/
def hwRowB : Homework := ⟨7, "Физика", none, none, none, some 1, some 2, some 5⟩

/-- Sample store for C8. -/
def dbDenied : DB := ⟨[⟨1, "Группа 1"⟩], [stPlain, stMonitorB], [hwRowB], 3, 8⟩

/-- Witness for C8: the student-tier caller 401 cannot delete row 7; the
monitor 402 deleting missing id 99 gets the not-found failure. -/
theorem delete_homework_student_denied_and_missing_reported_witness :
    envOK.dbUrl = true ∧ envOK.dbOk = true ∧
    dbDenied.students.find? (fun t => t.telegramUserId == (401 : Int)) = some stPlain ∧
    stPlain.accessLevel = some AccessLevel.student ∧
    dbDenied.homework.find? (fun h => h.id == (7 : Nat)) = some hwRowB ∧
    dbDenied.students.find? (fun t => t.telegramUserId == (402 : Int)) = some stMonitorB ∧
    hasPermission (levelOf stMonitorB) = true ∧
    dbDenied.homework.find? (fun h => h.id == (99 : Nat)) = none ∧
    ((deleteHomework envOK dbDenied 401 7).1.success = false ∧
     (deleteHomework envOK dbDenied 401 7).1.message =
       "У вас нет прав для удаления домашних заданий. Обратитесь к старосте или администратору." ∧
     (deleteHomework envOK dbDenied 401 7).2 = dbDenied ∧
     hwRowB ∈ (deleteHomework envOK dbDenied 401 7).2.homework ∧
     (deleteHomework envOK dbDenied 402 99).1.success = false ∧
     (deleteHomework envOK dbDenied 402 99).1.message = "Домашнее задание не найдено" ∧
     (deleteHomework envOK dbDenied 402 99).2 = dbDenied) :=
  ⟨rfl, rfl, by decide, rfl, by decide, by decide, rfl, by decide,
   delete_homework_student_denied_and_missing_reported envOK dbDenied 401 402 7 99
     stPlain stMonitorB hwRowB rfl rfl (by decide) rfl (by decide) (by decide) rfl (by decide)⟩

/-- C7: for a permitted caller with a resolvable, existing target group, an
unparseable due-date string does not fail the add call: the homework is
created with dueDate = null and success = true. -/
theorem add_homework_unparseable_due_date
    (env : Env) (db : DB) (uid : Int) (title ds : String)
    (descr subj : Option String) (gid : Option Nat) (c : Student) (tg : Nat) (grp : Group)
    (hurl : env.dbUrl = true) (hok : env.dbOk = true)
    (hfind : db.students.find? (fun t => t.telegramUserId == uid) = some c)
    (hperm : hasPermission (levelOf c) = true)
    (htg : addTargetGroup gid c.groupId = some tg)
    (hgrp : db.groups.find? (fun gr => gr.id == tg) = some grp)
    (hparse : env.parseDate ds = none) :
    (addHomework env db uid title descr subj (some ds) gid).1.success = true ∧
    (∃ out, (addHomework env db uid title descr subj (some ds) gid).1.homework = some out ∧
      out.dueDate = none) ∧
    (addHomework env db uid title descr subj (some ds) gid).2.homework =
      db.homework ++ [⟨db.nextHomeworkId, title, jsStr descr, jsStr subj, none,
        some tg, some c.id, some env.now⟩] := by
  have hpd : (jsStr (some ds)).bind env.parseDate = none := by
    by_cases hds : ds = "" <;> simp [jsStr, hds, hparse]
  simp [addHomework, hurl, hok, hfind, hperm, htg, hgrp, hpd]

/-- Witness for C7: the monitor of dbCross adds homework with the
unparseable due-date string and the row is created with a null dueDate. -/
theorem add_homework_unparseable_due_date_witness :
    envOK.dbUrl = true ∧ envOK.dbOk = true ∧
    dbCross.students.find? (fun t => t.telegramUserId == (200 : Int)) = some stMonitor ∧
    hasPermission (levelOf stMonitor) = true ∧
    addTargetGroup none stMonitor.groupId = some 1 ∧
    dbCross.groups.find? (fun gr => gr.id == (1 : Nat)) = some ⟨1, "Группа 1"⟩ ∧
    envOK.parseDate "завтра" = none ∧
    ((addHomework envOK dbCross 200 "Тест" none none (some "завтра") none).1.success = true ∧
     (∃ out, (addHomework envOK dbCross 200 "Тест" none none (some "завтра") none).1.homework =
        some out ∧ out.dueDate = none) ∧
     (addHomework envOK dbCross 200 "Тест" none none (some "завтра") none).2.homework =
       dbCross.homework ++ [⟨dbCross.nextHomeworkId, "Тест", jsStr none, jsStr none, none,
         some 1, some stMonitor.id, some envOK.now⟩]) :=
  ⟨rfl, rfl, by decide, rfl, by decide, by decide, rfl,
   add_homework_unparseable_due_date envOK dbCross 200 "Тест" "завтра" none none none
     stMonitor 1 ⟨1, "Группа 1"⟩ rfl rfl (by decide) rfl (by decide) (by decide) rfl⟩

/-- C5: for a caller whose tier is neither admin nor owner and who has an
own group, view with any requested groupId returns exactly what a request
without a groupId returns, and every returned item comes from a homework
row of the caller's own group — the requested group is never honoured. -/
theorem view_homework_scope_enforced
    (env : Env) (db : DB) (uid : Int) (x g lim : Nat) (u : Student)
    (hurl : env.dbUrl = true) (hok : env.dbOk = true)
    (hfind : db.students.find? (fun t => t.telegramUserId == uid) = some u)
    (hadmin : isAdminLevel (levelOf u) = false)
    (hg : u.groupId = some g) (hgpos : g ≠ 0) :
    viewHomework env db uid (some x) lim = viewHomework env db uid none lim ∧
    ∀ item ∈ (viewHomework env db uid (some x) lim).1.homeworkList,
      ∃ hw, hw ∈ db.homework ∧ hw.id = item.id ∧ hw.title = item.title ∧
        hw.groupId = some g := by
  have htg : viewTargetGroup (isAdminLevel (levelOf u)) (some x) u.groupId = some g := by
    simp [viewTargetGroup, hadmin, hg, jsNat, hgpos]
  have htg2 : viewTargetGroup (isAdminLevel (levelOf u)) none u.groupId = some g := by
    simp [viewTargetGroup, hadmin, hg, jsNat, hgpos]
  constructor
  · simp [viewHomework, hurl, hok, hfind, htg, htg2]
  · intro item hitem
    have hlist : (viewHomework env db uid (some x) lim).1.homeworkList =
        ((((db.homework.filter (fun hw => hw.groupId == some g)).insertionSort
          hwOrder).take lim).map (viewItem db)) := by
      simp [viewHomework, hurl, hok, hfind, htg]
    rw [hlist] at hitem
    obtain ⟨hw, hhw, hproj⟩ := List.mem_map.mp hitem
    have hw1 : hw ∈ (db.homework.filter (fun hw => hw.groupId == some g)).insertionSort hwOrder :=
      List.mem_of_mem_take hhw
    have hw2 : hw ∈ db.homework.filter (fun hw => hw.groupId == some g) :=
      (List.mem_insertionSort hwOrder).mp hw1
    have hw3 := List.mem_filter.mp hw2
    refine ⟨hw, hw3.1, ?_, ?_, ?_⟩
    · rw [← hproj]; rfl
    · rw [← hproj]; rfl
    · simpa using hw3.2

/-- Sample non-admin (monitor) viewer in group 1 for C5. -/
def stViewer : Student :=
  ⟨1, 500, none, "ST002", some "Мария", none, some 1, some AccessLevel.monitor, some true⟩

/-- Sample store for C5: one homework row in group 1, one in group 2. -/
def dbTwoGroups : DB :=
  ⟨[⟨1, "Группа 1"⟩, ⟨2, "Группа 2"⟩], [stViewer],
   [⟨1, "Своё", none, none, none, some 1, some 1, some 4⟩,
    ⟨2, "Чужое", none, none, none, some 2, some 1, some 9⟩], 2, 3⟩

/-- Witness for C5: the group-1 monitor requesting group 2 is scoped back
to group 1. -/
theorem view_homework_scope_enforced_witness :
    envOK.dbUrl = true ∧ envOK.dbOk = true ∧
    dbTwoGroups.students.find? (fun t => t.telegramUserId == (500 : Int)) = some stViewer ∧
    isAdminLevel (levelOf stViewer) = false ∧
    stViewer.groupId = some 1 ∧ (1 : Nat) ≠ 0 ∧
    (viewHomework envOK dbTwoGroups 500 (some 2) 10 = viewHomework envOK dbTwoGroups 500 none 10 ∧
     ∀ item ∈ (viewHomework envOK dbTwoGroups 500 (some 2) 10).1.homeworkList,
       ∃ hw, hw ∈ dbTwoGroups.homework ∧ hw.id = item.id ∧ hw.title = item.title ∧
         hw.groupId = some 1) :=
  ⟨rfl, rfl, by decide, rfl, rfl, by decide,
   view_homework_scope_enforced envOK dbTwoGroups 500 2 1 10 stViewer rfl rfl
     (by decide) rfl rfl (by decide)⟩

/-- C1: after any successful registration of an identity with a studentId,
calling registration again with the same identity and studentId succeeds
again, returns a student record with the same id, studentId, groupId and
accessLevel as the first call, and leaves the store unchanged — no new row
and no error. -/
theorem registration_idempotent
    (env : Env) (db db1 db2 : DB) (uid : Int) (un un2 fn fn2 ln ln2 : Option String)
    (sid : String) (o1 o2 : RegOutput)
    (hurl : env.dbUrl = true) (hok : env.dbOk = true)
    (h1 : studentRegistration env db uid un sid fn ln = (o1, db1))
    (ho1 : o1.success = true)
    (h2 : studentRegistration env db1 uid un2 sid fn2 ln2 = (o2, db2)) :
    o2.success = true ∧ db2 = db1 ∧
    ∃ s1 s2, o1.student = some s1 ∧ o2.student = some s2 ∧
      s2.id = s1.id ∧ s2.studentId = s1.studentId ∧ s2.groupId = s1.groupId ∧
      s2.accessLevel = s1.accessLevel := by
  have hnurl : ¬ (env.dbUrl = false) := by simp [hurl]
  have hnok : ¬ (env.dbOk = false) := by simp [hok]
  unfold studentRegistration at h1 h2
  cases hA : AUTHORIZED_STUDENTS (jsToUpper sid) with
  | none =>
    simp only [hA] at h1
    injection h1 with ha hb
    subst ha
    simp at ho1
  | some auth =>
    simp only [hA, if_neg hnurl, if_neg hnok] at h1 h2
    cases hF : db.students.find? (fun s => s.studentId == jsToUpper sid) with
    | some existing =>
      simp only [hF] at h1
      cases hT : existing.telegramUserId == uid with
      | false =>
        rw [if_neg (by simp [hT])] at h1
        injection h1 with ha hb
        subst ha
        simp at ho1
      | true =>
        rw [if_pos hT] at h1
        injection h1 with ha hb
        subst ha
        subst hb
        simp only [hF] at h2
        rw [if_pos hT] at h2
        injection h2 with ha2 hb2
        subst ha2
        subst hb2
        exact ⟨rfl, rfl, _, _, rfl, rfl, rfl, rfl, rfl, rfl⟩
    | none =>
      simp only [hF] at h1
      cases hT2 : db.students.find? (fun s => s.telegramUserId == uid) with
      | some existingT =>
        simp only [hT2] at h1
        injection h1 with ha hb
        subst ha
        simp at ho1
      | none =>
        simp only [hT2] at h1
        injection h1 with ha hb
        subst ha
        subst hb
        set ns : Student :=
          ⟨db.nextStudentId, uid, jsStr un, jsToUpper sid, jsOrStr fn auth.firstName,
           jsOrStr ln auth.lastName, some auth.groupId, some auth.accessLevel, some true⟩
          with hns
        have hF2 : (db.students ++ [ns]).find? (fun s => s.studentId == jsToUpper sid) =
            some ns := by
          rw [List.find?_append, hF]
          simp [hns]
        have hTT : (ns.telegramUserId == uid) = true := by simp [hns]
        simp only [hF2] at h2
        rw [if_pos hTT] at h2
        injection h2 with ha2 hb2
        subst ha2
        subst hb2
        exact ⟨rfl, rfl, _, _, rfl, rfl, rfl, rfl, rfl, rfl⟩

/-- Sample store with one group and no students, for the registration scenarios. -/
def dbEmpty : DB := ⟨[⟨1, "Группа 1"⟩], [], [], 1, 1⟩

/-- First registration of identity 42 with studentId "st001" on the empty store. -/
def regFirst : RegOutput × DB := studentRegistration envOK dbEmpty 42 none "st001" none none

/-- Second, identical registration call on the store left by the first. -/
def regSecond : RegOutput × DB :=
  studentRegistration envOK regFirst.2 42 none "st001" none none

/-- Witness for C1 at the concrete two-call scenario of identity 42. -/
theorem registration_idempotent_witness :
    envOK.dbUrl = true ∧ envOK.dbOk = true ∧
    studentRegistration envOK dbEmpty 42 none "st001" none none = (regFirst.1, regFirst.2) ∧
    regFirst.1.success = true ∧
    studentRegistration envOK regFirst.2 42 none "st001" none none =
      (regSecond.1, regSecond.2) ∧
    (regSecond.1.success = true ∧ regSecond.2 = regFirst.2 ∧
     ∃ s1 s2, regFirst.1.student = some s1 ∧ regSecond.1.student = some s2 ∧
       s2.id = s1.id ∧ s2.studentId = s1.studentId ∧ s2.groupId = s1.groupId ∧
       s2.accessLevel = s1.accessLevel) :=
  ⟨rfl, rfl, rfl, by decide, rfl,
   registration_idempotent envOK dbEmpty regFirst.2 regSecond.2 42 none none none none
     none none "st001" regFirst.1 regSecond.1 rfl rfl rfl (by decide) rfl⟩

/-- C2: once a studentId is successfully registered by one identity, a
registration attempt for the same studentId by any different identity
fails with the already-claimed conflict message, returns no student, and
leaves the store unchanged — so of the two distinct identities exactly the
first succeeds. -/
theorem registration_conflict_second_identity
    (env : Env) (db db1 db2 : DB) (uid1 uid2 : Int)
    (un1 un2 fn1 fn2 ln1 ln2 : Option String) (sid : String) (o1 o2 : RegOutput)
    (hurl : env.dbUrl = true) (hok : env.dbOk = true)
    (hne : uid2 ≠ uid1)
    (h1 : studentRegistration env db uid1 un1 sid fn1 ln1 = (o1, db1))
    (ho1 : o1.success = true)
    (h2 : studentRegistration env db1 uid2 un2 sid fn2 ln2 = (o2, db2)) :
    o2.success = false ∧ o2.student = none ∧ db2 = db1 ∧
    o2.message =
      "ID студента \"" ++ sid ++ "\" уже используется другим пользователем Telegram." := by
  have hnurl : ¬ (env.dbUrl = false) := by simp [hurl]
  have hnok : ¬ (env.dbOk = false) := by simp [hok]
  unfold studentRegistration at h1 h2
  cases hA : AUTHORIZED_STUDENTS (jsToUpper sid) with
  | none =>
    simp only [hA] at h1
    injection h1 with ha hb
    subst ha
    simp at ho1
  | some auth =>
    simp only [hA, if_neg hnurl, if_neg hnok] at h1 h2
    cases hF : db.students.find? (fun s => s.studentId == jsToUpper sid) with
    | some existing =>
      simp only [hF] at h1
      cases hT : existing.telegramUserId == uid1 with
      | false =>
        rw [if_neg (by simp [hT])] at h1
        injection h1 with ha hb
        subst ha
        simp at ho1
      | true =>
        rw [if_pos hT] at h1
        injection h1 with ha hb
        subst ha
        subst hb
        have hx : existing.telegramUserId = uid1 := by simpa using hT
        have hTb : (existing.telegramUserId == uid2) = false := by
          simp only [beq_eq_false_iff_ne, ne_eq, hx]
          exact fun h => hne h.symm
        simp only [hF] at h2
        rw [if_neg (by simp [hTb])] at h2
        injection h2 with ha2 hb2
        subst ha2
        subst hb2
        exact ⟨rfl, rfl, rfl, rfl⟩
    | none =>
      simp only [hF] at h1
      cases hT2 : db.students.find? (fun s => s.telegramUserId == uid1) with
      | some existingT =>
        simp only [hT2] at h1
        injection h1 with ha hb
        subst ha
        simp at ho1
      | none =>
        simp only [hT2] at h1
        injection h1 with ha hb
        subst ha
        subst hb
        set ns : Student :=
          ⟨db.nextStudentId, uid1, jsStr un1, jsToUpper sid, jsOrStr fn1 auth.firstName,
           jsOrStr ln1 auth.lastName, some auth.groupId, some auth.accessLevel, some true⟩
          with hns
        have hF2 : (db.students ++ [ns]).find? (fun s => s.studentId == jsToUpper sid) =
            some ns := by
          rw [List.find?_append, hF]
          simp [hns]
        have hTb : (ns.telegramUserId == uid2) = false := by
          simp only [beq_eq_false_iff_ne, ne_eq, hns]
          exact fun h => hne h.symm
        simp only [hF2] at h2
        rw [if_neg (by simp [hTb])] at h2
        injection h2 with ha2 hb2
        subst ha2
        subst hb2
        exact ⟨rfl, rfl, rfl, rfl⟩

/-- Registration attempt of the different identity 43 for the already
claimed studentId "st001". -/
def regConflict : RegOutput × DB :=
  studentRegistration envOK regFirst.2 43 none "st001" none none

/-- Witness for C2: identity 42 registers "st001", then identity 43 is
refused with the conflict message and no store change. -/
theorem registration_conflict_second_identity_witness :
    envOK.dbUrl = true ∧ envOK.dbOk = true ∧ (43 : Int) ≠ 42 ∧
    studentRegistration envOK dbEmpty 42 none "st001" none none = (regFirst.1, regFirst.2) ∧
    regFirst.1.success = true ∧
    studentRegistration envOK regFirst.2 43 none "st001" none none =
      (regConflict.1, regConflict.2) ∧
    (regConflict.1.success = false ∧ regConflict.1.student = none ∧
     regConflict.2 = regFirst.2 ∧
     regConflict.1.message =
       "ID студента \"st001\" уже используется другим пользователем Telegram.") :=
  ⟨rfl, rfl, by decide, rfl, by decide, rfl,
   registration_conflict_second_identity envOK dbEmpty regFirst.2 regConflict.2 42 43
     none none none none none none "st001" regFirst.1 regConflict.1 rfl rfl (by decide)
     rfl (by decide) rfl⟩

/-- Sample deactivated monitor for the C4 counterexample. -/
def stDeadMonitor : Student :=
  ⟨1, 600, none, "ST002", some "Мария", none, some 1, some AccessLevel.monitor, some false⟩

/-- Sample store for the C4 counterexample: the deactivated monitor and one
homework row in the monitor's group. -/
def dbDead : DB :=
  ⟨[⟨1, "Группа 1"⟩], [stDeadMonitor],
   [⟨3, "ДЗ", none, none, none, some 1, some 1, some 2⟩], 2, 4⟩

/-- Counterexample to C4 as stated: the caller's record is deactivated
(isActive = false), yet homework view, add and delete all succeed — none of
the downstream tools treats the deactivated caller as unauthenticated. -/
theorem homework_tools_deactivated_counterexample :
    stDeadMonitor.isActive = some false ∧
    (viewHomework envOK dbDead 600 none 10).1.success = true ∧
    (addHomework envOK dbDead 600 "Новое" none none none none).1.success = true ∧
    (deleteHomework envOK dbDead 600 3).1.success = true := by
  refine ⟨rfl, ?_, ?_, ?_⟩ <;> decide

/-- The store with every student row's isActive overwritten by b. -/
def setActiveAll (b : Option Bool) (db : DB) : DB :=
  { db with students := db.students.map (fun s => { s with isActive := b }) }

/-- One view item is unaffected by overwriting isActive on every student. -/
theorem viewItem_setActiveAll (b : Option Bool) (db : DB) (hw : Homework) :
    viewItem (setActiveAll b db) hw = viewItem db hw := by
  unfold viewItem
  congr 1
  cases hcb : hw.createdBy with
  | none => rfl
  | some cid =>
    have hmap := find?_map_same (fun s : Student => { s with isActive := b })
      (fun s : Student => s.id == cid) (fun _ => rfl) db.students
    show creatorName ((setActiveAll b db).students.find? (fun s => s.id == cid)) =
        creatorName (db.students.find? (fun s => s.id == cid))
    rw [show (setActiveAll b db).students =
      db.students.map (fun s : Student => { s with isActive := b }) from rfl, hmap]
    cases db.students.find? (fun s => s.id == cid) with
    | none => rfl
    | some st => rfl

/-- C4 amended: the homework tools never read isActive — overwriting the
isActive flag of every student row changes neither the output of add, view
or delete nor their effect on the homework table; deactivation is enforced
by the verification tool only, not by the downstream homework operations. -/
theorem homework_tools_ignore_isActive
    (env : Env) (db : DB) (b : Option Bool) (uid : Int) (title : String)
    (descr subj dd : Option String) (gid : Option Nat) (lim hwid : Nat) :
    (addHomework env (setActiveAll b db) uid title descr subj dd gid).1 =
        (addHomework env db uid title descr subj dd gid).1 ∧
    (addHomework env (setActiveAll b db) uid title descr subj dd gid).2.homework =
        (addHomework env db uid title descr subj dd gid).2.homework ∧
    (viewHomework env (setActiveAll b db) uid gid lim).1 =
        (viewHomework env db uid gid lim).1 ∧
    (deleteHomework env (setActiveAll b db) uid hwid).1 =
        (deleteHomework env db uid hwid).1 ∧
    (deleteHomework env (setActiveAll b db) uid hwid).2.homework =
        (deleteHomework env db uid hwid).2.homework := by
  have hset : (setActiveAll b db).students =
      db.students.map (fun s : Student => { s with isActive := b }) := rfl
  cases hurl : env.dbUrl with
  | false =>
    refine ⟨?_, ?_, ?_, ?_, ?_⟩ <;>
      simp [addHomework, viewHomework, deleteHomework, hurl, setActiveAll]
  | true =>
    have hnurl : ¬ (env.dbUrl = false) := by simp [hurl]
    cases hok : env.dbOk with
    | false =>
      refine ⟨?_, ?_, ?_, ?_, ?_⟩ <;>
        simp [addHomework, viewHomework, deleteHomework, hurl, hok, setActiveAll]
    | true =>
      have hnok : ¬ (env.dbOk = false) := by simp [hok]
      have hmapu := find?_map_same (fun s : Student => { s with isActive := b })
        (fun t : Student => t.telegramUserId == uid) (fun _ => rfl) db.students
      cases hfu : db.students.find? (fun t => t.telegramUserId == uid) with
      | none =>
        refine ⟨?_, ?_, ?_, ?_, ?_⟩ <;>
          (simp only [addHomework, viewHomework, deleteHomework, if_neg hnurl, if_neg hnok];
           rw [hset, hmapu, hfu];
           rfl)
      | some s =>
        have hitems : ∀ l : List Homework,
            l.map (viewItem (setActiveAll b db)) = l.map (viewItem db) :=
          fun l => List.map_congr_left (fun a _ => viewItem_setActiveAll b db a)
        refine ⟨?_, ?_, ?_, ?_, ?_⟩ <;>
          (simp only [addHomework, viewHomework, deleteHomework, if_neg hnurl, if_neg hnok];
           rw [hset, hmapu, hfu];
           try simp only [hitems];
           dsimp only [levelOf, Option.map, setActiveAll];
           repeat' (first | rfl | split))

end ClassroomBot
